import Mathlib

/-!
Verification development for the Currency-Converter repository's
rate-resolution and caching layer.

Embedding conventions:
* IEEE-754 double arithmetic of JS/PHP is idealized as exact rational
  arithmetic (`ℚ`); `Math.round` (JS) and `round` (PHP) agree on the
  non-negative values in scope and are modelled as `⌊x + 1/2⌋`.
* Timestamps (`Date.now()`, `time()`, `filemtime`) are integers (`Int`);
  the client measures milliseconds, the PHP endpoints seconds.
* Calendar dates are integer day numbers (`today - i` stands for the ISO
  date i days before today).
* A network fetch is an `Option`-valued input: `some d` is a successful
  upstream/back-end response carrying data `d`, `none` is any failure
  (network error, timeout, non-2xx status, malformed JSON) — exactly the
  conditions each `try`/`catch` treats uniformly.
* Randomness (`Math.random()`, `mt_rand`) is an explicit input stream.
* ISO-8601 `date`/`timestamp` strings attached to responses, and the
  history-record `id`/`timestamp` assignment, are not modelled: no claim
  mentions them.
* PHP `empty()` on the raw parameters is modelled as equality with the
  empty string (amounts are taken as already-parsed rationals).
-/

/-! ### Rounding (src/unnamed/part_000 and part_001: `Math.round(x*100)/100`,
`Math.round(x*1000000)/1000000`; src/api/convert.php: `round($x, 2)`, `round($x, 6)`) -/

def jsRound (q : ℚ) : ℤ := ⌊q + 1/2⌋

def round2 (q : ℚ) : ℚ := (jsRound (q * 100) : ℚ) / 100

def round6 (q : ℚ) : ℚ := (jsRound (q * 1000000) : ℚ) / 1000000

/-! ### ASCII case/trim normalization (`.toUpperCase()` in JS,
`strtoupper(trim(...))` in PHP; currency codes are ASCII) -/

def upperAscii (s : String) : String := ⟨s.data.map Char.toUpper⟩

def isPhpTrimChar (c : Char) : Bool :=
  c == ' ' || c == '\t' || c == '\n' || c == '\r'

def trimAscii (s : String) : String :=
  ⟨((s.data.dropWhile isPhpTrimChar).reverse.dropWhile isPhpTrimChar).reverse⟩

def normCode (s : String) : String := upperAscii (trimAscii s)

/-! ### The static fallback rate table
(identical in src/unnamed/part_000, src/unnamed/part_001 `fallbackRates`
and src/api/convert.php `$rates`) -/

def fallbackRatesList : List (String × ℚ) :=
  [("USD", 1), ("EUR", 85/100), ("GBP", 73/100), ("JPY", 110),
   ("CHF", 92/100), ("CAD", 125/100), ("AUD", 135/100), ("CNY", 645/100),
   ("RUB", 75), ("INR", 74), ("BRL", 52/10), ("KRW", 1180),
   ("MXN", 20), ("SGD", 135/100), ("HKD", 78/10), ("NOK", 85/10),
   ("SEK", 87/10), ("DKK", 63/10), ("PLN", 39/10), ("CZK", 215/10)]

def ratesQ (code : String) : Option ℚ :=
  (fallbackRatesList.find? (fun p => p.1 == code)).map (fun p => p.2)

/-- The `StaticFallbackSource.fetchRate` formula `table[to] / table[from]`,
as computed by both fallback branches (src/unnamed/part_001 line 180,
src/api/convert.php line 163). -/
def staticRate (frm toC : String) : Option ℚ :=
  match ratesQ frm, ratesQ toC with
  | some rf, some rt => some (rt / rf)
  | _, _ => none

/-! ### Symbol tables -/

structure SymbolInfo where
  description : String
  symbol : String
deriving DecidableEq

/-- `fallbackSymbols` of the client module (src/unnamed/part_001 lines 14-35). -/
def clientFallbackSymbols : List (String × SymbolInfo) :=
  [("USD", ⟨"US Dollar", "$"⟩), ("EUR", ⟨"Euro", "€"⟩),
   ("GBP", ⟨"British Pound", "£"⟩), ("JPY", ⟨"Japanese Yen", "¥"⟩),
   ("CHF", ⟨"Swiss Franc", "CHF"⟩), ("CAD", ⟨"Canadian Dollar", "C$"⟩),
   ("AUD", ⟨"Australian Dollar", "A$"⟩), ("CNY", ⟨"Chinese Yuan", "¥"⟩),
   ("RUB", ⟨"Russian Ruble", "₽"⟩), ("INR", ⟨"Indian Rupee", "₹"⟩),
   ("BRL", ⟨"Brazilian Real", "R$"⟩), ("KRW", ⟨"South Korean Won", "₩"⟩),
   ("MXN", ⟨"Mexican Peso", "$"⟩), ("SGD", ⟨"Singapore Dollar", "S$"⟩),
   ("HKD", ⟨"Hong Kong Dollar", "HK$"⟩), ("NOK", ⟨"Norwegian Krone", "kr"⟩),
   ("SEK", ⟨"Swedish Krona", "kr"⟩), ("DKK", ⟨"Danish Krone", "kr"⟩),
   ("PLN", ⟨"Polish Zloty", "zł"⟩), ("CZK", ⟨"Czech Koruna", "Kč"⟩)]

/-- `$fallbackSymbols` of the symbols endpoint (src/api/convert.php,
symbols part, lines 269-292): the same 20 codes plus TL and UA. -/
def serverFallbackSymbols : List (String × SymbolInfo) :=
  clientFallbackSymbols ++
  [("TL", ⟨"Turkish Lira", "₺"⟩), ("UA", ⟨"Ukrainian Hryvnia", "₴"⟩)]

/-! ### Response shapes (the JSON object literals of the endpoints and the
client module; `cached : Option Bool` is `none` when the object literal has
no `cached` key) -/

structure ConvResp where
  success : Bool := true
  frm : String := ""
  toC : String := ""  -- source field name: to
  amount : ℚ := 0
  result : ℚ := 0
  rate : ℚ := 0
  cached : Option Bool := none
  fallback : Bool := false
  error : Option String := none
deriving DecidableEq

structure SymbolsResp where
  success : Bool := true
  symbols : List (String × SymbolInfo) := []
  cached : Bool := false
  fallback : Bool := false
deriving DecidableEq

instance {ε α : Type} [DecidableEq ε] [DecidableEq α] : DecidableEq (Except ε α) :=
  fun x y =>
    match x, y with
    | .ok a, .ok b =>
      if h : a = b then isTrue (h ▸ rfl) else isFalse (fun hh => h (Except.ok.inj hh))
    | .error a, .error b =>
      if h : a = b then isTrue (h ▸ rfl) else isFalse (fun hh => h (Except.error.inj hh))
    | .ok _, .error _ => isFalse (fun hh => Except.noConfusion hh)
    | .error _, .ok _ => isFalse (fun hh => Except.noConfusion hh)

/-! ### The client-side cache (src/unnamed/part_000 and part_001:
`this.cache` Map, entries `{ data, timestamp }`, checked against
`this.cacheTimeout` before use and overwritten by `cache.set`) -/

structure CacheEntry (α : Type) where
  data : α
  timestamp : Int
deriving DecidableEq

def ClientCache (α : Type) : Type := List (String × CacheEntry α)

def cacheGet {α : Type} (st : ClientCache α) (key : String) : Option (CacheEntry α) :=
  (st.find? (fun p => p.1 == key)).map (fun p => p.2)

def cacheSet {α : Type} (st : ClientCache α) (key : String) (e : CacheEntry α) :
    ClientCache α :=
  (key, e) :: st.filter (fun p => !(p.1 == key))

/-- Result of one client-module operation: the value returned (or the error
thrown), the cache afterwards, and whether the inner source (the back-end
HTTP request) was invoked. -/
structure CallOutE (α : Type) where
  outcome : Except String α
  cache : ClientCache α
  innerInvoked : Bool

def cachedFetchMiss {α : Type} (key : String) (now : Int) (st : ClientCache α)
    (inner : Option α) (fb : Except String α) : CallOutE α :=
  match inner with
  | some d => ⟨.ok d, cacheSet st key ⟨d, now⟩, true⟩
  | none =>
    match fb with
    | .ok f => ⟨.ok f, cacheSet st key ⟨f, now⟩, true⟩
    | .error m => ⟨.error m, st, true⟩

/-- The shared shape of `getSymbols` and `getTimeSeries` in the client module
(src/unnamed/part_001 lines 100-142 and 203-278): serve a fresh cache entry
without contacting the inner source; otherwise request the back-end; on
success cache and return; on failure build the fallback value `fb` — caching
and returning it when it exists, propagating the thrown error when it does
not (`getTimeSeries` with an unsupported pair). -/
def cachedFetchE {α : Type} (key : String) (ttl now : Int) (st : ClientCache α)
    (inner : Option α) (fb : Except String α) : CallOutE α :=
  match cacheGet st key with
  | some e =>
    if now - e.timestamp < ttl then ⟨.ok e.data, st, false⟩
    else cachedFetchMiss key now st inner fb
  | none => cachedFetchMiss key now st inner fb

/-- `this.cacheTimeout = 5 * 60 * 1000` (src/unnamed/part_001 line 11):
one shared TTL, in milliseconds, for every client-module operation. -/
def clientCacheTimeout : Int := 5 * 60 * 1000

def invalidParamsMsg : String := "Неверные параметры конвертации"

def unsupportedMsg : String := "Валюта не поддерживается в демо режиме"

def clientFallbackSymbolsResp : SymbolsResp :=
  { success := true, symbols := clientFallbackSymbols, cached := false, fallback := true }

/-- `CurrencyAPI.getSymbols` (src/unnamed/part_001 lines 100-142). -/
def clientGetSymbols (st : ClientCache SymbolsResp) (now : Int)
    (inner : Option SymbolsResp) : CallOutE SymbolsResp :=
  cachedFetchE "symbols" clientCacheTimeout now st inner (.ok clientFallbackSymbolsResp)

structure ClientConvertOut where
  outcome : Except String ConvResp
  innerInvoked : Bool

/-- `CurrencyAPI.convert` (src/unnamed/part_001 lines 151-194): no cache is
consulted or written; on back-end failure compute from the static table or
throw when a code is missing from it. -/
def clientConvert (backend : Option ConvResp) (frm toC : String) (amount : ℚ) :
    ClientConvertOut :=
  if frm = "" ∨ toC = "" ∨ amount ≤ 0 then ⟨.error invalidParamsMsg, false⟩
  else
    match backend with
    | some d => ⟨.ok d, true⟩
    | none =>
      let f := upperAscii frm
      let t := upperAscii toC
      match ratesQ f, ratesQ t with
      | some rf, some rt =>
        let rate := rt / rf
        ⟨.ok { success := true, frm := f, toC := t, amount := amount,
               result := round2 (amount * rate), rate := round6 rate,
               fallback := true }, true⟩
      | _, _ => ⟨.error unsupportedMsg, true⟩

structure TsClientResp where
  frm : String := ""
  toC : String := ""  -- source field name: to
  rates : List (Int × ℚ) := []
  fallback : Bool := false
deriving DecidableEq

/-- The fallback series generator of `CurrencyAPI.getTimeSeries`
(src/unnamed/part_001 lines 251-261): for `i = days` down to `0`, one entry
dated `today - i` whose rate is `baseRate * (1 + variation)` with
`variation = (Math.random() - 0.5) * 0.1`; `w` is the stream of
`Math.random()` draws. The loop body never runs when `days < 0`. -/
def clientMockRates (w : ℕ → ℚ) (base : ℚ) (today days : Int) : List (Int × ℚ) :=
  (List.range (if 0 ≤ days then days.toNat + 1 else 0)).map
    (fun (j : ℕ) => (today - days + (j : Int), base * (1 + (w j - 1/2) * (1/10))))

/-- `CurrencyAPI.getTimeSeries` (src/unnamed/part_001 lines 203-278): cache
keyed by the raw parameters, back-end first, synthetic fallback series
second, unsupported-currency error last; `days` is never clamped. -/
def clientGetTimeSeries (st : ClientCache TsClientResp) (now today : Int)
    (inner : Option TsClientResp) (w : ℕ → ℚ) (frm toC : String) (days : Int) :
    CallOutE TsClientResp :=
  let key := "timeseries_" ++ frm ++ "_" ++ toC ++ "_" ++ toString days
  let fb : Except String TsClientResp :=
    match ratesQ (upperAscii frm), ratesQ (upperAscii toC) with
    | some rf, some rt =>
      .ok { frm := upperAscii frm, toC := upperAscii toC,
            rates := clientMockRates w (rt / rf) today days, fallback := true }
    | _, _ => .error unsupportedMsg
  cachedFetchE key clientCacheTimeout now st inner fb

/-- `CurrencyAPI.getHistoryFromStorage` (src/unnamed/part_001 lines 341-349):
`localStorage.getItem` returns the stored list or null (`none`), in which
case the empty list is produced. -/
def clientHistoryFromStorage {α : Type} (stored : Option (List α)) : List α :=
  stored.getD []

/-- One `append` of the history log: prepend (`array_unshift`/`unshift`) and
truncate to the newest `cap` records (`array_slice($h,0,$max)` in
src/api/history.php lines 139-145, `history.splice(50)` in
src/unnamed/part_001 lines 355-363). -/
def historyAppend {α : Type} (cap : ℕ) (stored : List α) (r : α) : List α :=
  (r :: stored).take cap

/-- `$maxRecords = 50` (src/api/history.php line 31); the client localStorage
bound (src/unnamed/part_001 line 361) is the same. -/
def maxRecordsServer : ℕ := 50

/-! ### Server endpoints (src/api/convert.php, src/api/history.php; the
file-based cache of an endpoint is, per request, the one file addressed by
the md5 key of that request's normalized parameters, modelled as
`Option (Int × resp)`: write time and saved response) -/

/-- `$cacheTime = 300` of the convert endpoint (src/api/convert.php line 62). -/
def convertCacheTime : Int := 300

/-- `$cacheTime = 3600` of the symbols endpoint (src/api/convert.php,
symbols part, line 212). -/
def symbolsCacheTime : Int := 3600

/-- `$cacheTime = 1800` of the timeseries endpoint (src/api/history.php,
timeseries part, line 230). -/
def timeseriesCacheTime : Int := 1800

/-- Data extracted from a successful external-API convert response
(`$data['query']`, `$data['result']`, `$data['info']['rate']`). -/
structure UpstreamConvert where
  qfrom : String
  qto : String
  qamount : ℚ
  result : ℚ
  rate : ℚ
deriving DecidableEq

structure PhpConvertOut where
  resp : ConvResp
  cache : Option (Int × ConvResp)
  upstreamInvoked : Bool

/-- The `catch` block of the convert endpoint (src/api/convert.php lines
128-179): static-table fallback, or the unsupported-currency error response
(which carries no `cached` key). -/
def phpCatch (frm toC : String) (amount : ℚ) : ConvResp :=
  match ratesQ frm, ratesQ toC with
  | some rf, some rt =>
    { success := true, frm := frm, toC := toC, amount := amount,
      result := round2 (amount * (rt / rf)), rate := round6 (rt / rf),
      cached := some false, fallback := true }
  | _, _ => { success := false, error := some unsupportedMsg }

/-- The `$result` object built from a successful external response
(src/api/convert.php lines 112-121). -/
def convertLive (d : UpstreamConvert) : ConvResp :=
  { success := true, frm := d.qfrom, toC := d.qto, amount := d.qamount,
    result := d.result, rate := d.rate, cached := some false }

def convertPhpFetch (cache : Option (Int × ConvResp)) (now : Int)
    (upstream : Option UpstreamConvert) (frm toC : String) (amount : ℚ) :
    PhpConvertOut :=
  match upstream with
  | some d => ⟨convertLive d, some (now, convertLive d), true⟩
  | none => ⟨phpCatch frm toC amount, cache, true⟩

/-- Cache lookup step of the convert endpoint (src/api/convert.php lines
59-78): a cache file younger than `$cacheTime` is served with
`cached = true`; otherwise the external fetch runs. -/
def convertPhpCachePart (cache : Option (Int × ConvResp)) (now : Int)
    (upstream : Option UpstreamConvert) (frm toC : String) (amount : ℚ) :
    PhpConvertOut :=
  match cache with
  | some (t, saved) =>
    if now - t < convertCacheTime then
      ⟨{ saved with cached := some true }, some (t, saved), false⟩
    else convertPhpFetch (some (t, saved)) now upstream frm toC amount
  | none => convertPhpFetch none now upstream frm toC amount

/-- The convert endpoint (src/api/convert.php lines 29-179): parameter
validation, same-currency rejection, cache lookup, external fetch — any
failure up to here lands in the `catch` fallback; the cache is written only
after a successful external response. -/
def convertPhp (cache : Option (Int × ConvResp)) (now : Int)
    (upstream : Option UpstreamConvert) (rawFrom rawTo : String) (amount : ℚ) :
    PhpConvertOut :=
  if rawFrom = "" ∨ rawTo = "" then ⟨phpCatch rawFrom rawTo amount, cache, false⟩
  else
    let frm := normCode rawFrom
    let toC := normCode rawTo
    if amount ≤ 0 then ⟨phpCatch frm toC amount, cache, false⟩
    else if frm = toC then ⟨phpCatch frm toC amount, cache, false⟩
    else convertPhpCachePart cache now upstream frm toC amount

def serverFallbackSymbolsResp : SymbolsResp :=
  { success := true, symbols := serverFallbackSymbols, cached := false, fallback := true }

def symbolsPhpFetch (cache : Option (Int × SymbolsResp)) (now : Int)
    (upstream : Option (List (String × SymbolInfo))) :
    SymbolsResp × Option (Int × SymbolsResp) × Bool :=
  match upstream with
  | some syms =>
    let r : SymbolsResp := { success := true, symbols := syms, cached := false }
    (r, some (now, r), true)
  | none => (serverFallbackSymbolsResp, cache, true)

/-- The symbols endpoint (src/api/convert.php, symbols part, lines 209-303):
a fresh cache file is echoed verbatim; otherwise fetch, cache on success;
on any failure answer with the built-in table and `fallback = true`,
without touching the cache. -/
def symbolsPhp (cache : Option (Int × SymbolsResp)) (now : Int)
    (upstream : Option (List (String × SymbolInfo))) :
    SymbolsResp × Option (Int × SymbolsResp) × Bool :=
  match cache with
  | some (t, saved) =>
    if now - t < symbolsCacheTime then (saved, cache, false)
    else symbolsPhpFetch cache now upstream
  | none => symbolsPhpFetch cache now upstream

/-- `$days = max(1, min($days, 365))` (src/api/history.php, timeseries part,
line 225). -/
def clampDays (d : Int) : Int := max 1 (min d 365)

/-- `generateMockData` (src/api/history.php, timeseries part, lines 331-352):
for `i = days` down to `0`, one entry dated `today - i`; the rate is a random
walk `rate = base * (1 + mt_rand(-50,50)/1000)` stored rounded to 6 decimals,
with the unrounded rate as the next day's base. `v` is the `mt_rand(-50,50)`
stream; `j` counts iterations (so the date is `today - days + j`), `n` the
remaining iterations. -/
def genMockAux (v : ℕ → ℤ) (today : Int) (days : ℕ) : ℕ → ℕ → ℚ → List (Int × ℚ)
  | _, 0, _ => []
  | j, n + 1, base =>
    let rate := base * (1 + (v j : ℚ) / 1000)
    (today - days + j, round6 rate) :: genMockAux v today days (j + 1) n rate

def generateMockData (v : ℕ → ℤ) (today : Int) (days : ℕ) : List (Int × ℚ) :=
  genMockAux v today days 0 (days + 1) 1

def missingTsParamsMsg : String := "Необходимы параметры: from, to"

def upstreamFailMsg : String := "Не удалось получить данные от внешнего API"

structure TsPhpResp where
  success : Bool := true
  frm : String := ""
  toC : String := ""  -- source field name: to
  days : Int := 0
  rates : List (Int × ℚ) := []
  cached : Option Bool := none
  error : Option String := none
deriving DecidableEq

structure TsPhpOut where
  resp : TsPhpResp
  cache : Option (Int × TsPhpResp)
  upstreamInvoked : Bool

def timeseriesPhpFetch (cache : Option (Int × TsPhpResp)) (now : Int)
    (upstream : Option (List (Int × ℚ))) (v : ℕ → ℤ) (today : Int)
    (frm toC : String) (d : Int) : TsPhpOut :=
  match upstream with
  | some rs =>
    let rates := if rs = [] then generateMockData v today d.toNat else rs
    let r : TsPhpResp :=
      { success := true, frm := frm, toC := toC, days := d, rates := rates,
        cached := some false }
    ⟨r, some (now, r), true⟩
  | none => ⟨{ success := false, error := some upstreamFailMsg }, cache, true⟩

/-- Cache lookup step of the timeseries endpoint (src/api/history.php,
timeseries part, lines 238-246). -/
def timeseriesPhpCachePart (cache : Option (Int × TsPhpResp)) (now : Int)
    (upstream : Option (List (Int × ℚ))) (v : ℕ → ℤ) (today : Int)
    (frm toC : String) (d : Int) : TsPhpOut :=
  match cache with
  | some (t, saved) =>
    if now - t < timeseriesCacheTime then
      ⟨{ saved with cached := some true }, some (t, saved), false⟩
    else timeseriesPhpFetch (some (t, saved)) now upstream v today frm toC d
  | none => timeseriesPhpFetch none now upstream v today frm toC d

/-- The timeseries endpoint (src/api/history.php, timeseries part, lines
210-326): validate, clamp `days` to [1,365], cache lookup, external fetch
(substituting `generateMockData` when the upstream answer holds no rates);
any failure yields an error response — this endpoint has no rate fallback. -/
def timeseriesPhp (cache : Option (Int × TsPhpResp)) (now : Int)
    (upstream : Option (List (Int × ℚ))) (v : ℕ → ℤ) (today : Int)
    (rawFrom rawTo : String) (rawDays : Int) : TsPhpOut :=
  if rawFrom = "" ∨ rawTo = "" then
    ⟨{ success := false, error := some missingTsParamsMsg }, cache, false⟩
  else
    timeseriesPhpCachePart cache now upstream v today
      (normCode rawFrom) (normCode rawTo) (clampDays rawDays)

structure HistResp (α : Type) where
  success : Bool
  history : List α
  count : ℕ
deriving DecidableEq

/-- `handleGetHistory` (src/api/history.php lines 64-83): reads the stored
list (absent/unreadable file counts as empty) and answers with
`array_slice($history, 0, 10)` — at most the 10 newest records, always
successfully. -/
def handleGetHistory {α : Type} (stored : List α) : HistResp α :=
  { success := true, history := stored.take 10, count := (stored.take 10).length }

/-! ### Shared lemmas -/

theorem cacheGet_cacheSet {α : Type} (st : ClientCache α) (key : String)
    (e : CacheEntry α) : cacheGet (cacheSet st key e) key = some e := by
  simp [cacheGet, cacheSet, List.find?]

theorem cachedFetchMiss_invoked {α : Type} (key : String) (now : Int)
    (st : ClientCache α) (inner : Option α) (fb : Except String α) :
    (cachedFetchMiss key now st inner fb).innerInvoked = true := by
  unfold cachedFetchMiss
  cases inner with
  | some d => rfl
  | none =>
    cases fb with
    | ok f => rfl
    | error m => rfl

theorem cachedFetchE_hit_iff {α : Type} (key : String) (ttl now : Int)
    (st : ClientCache α) (inner : Option α) (fb : Except String α) :
    (cachedFetchE key ttl now st inner fb).innerInvoked = false ↔
      ∃ e, cacheGet st key = some e ∧ now - e.timestamp < ttl := by
  unfold cachedFetchE
  cases h : cacheGet st key with
  | none => simp [cachedFetchMiss_invoked]
  | some e =>
    by_cases hf : now - e.timestamp < ttl
    · simp [hf]
    · simp [hf, cachedFetchMiss_invoked]

theorem cachedFetchMiss_store {α : Type} (key : String) (now : Int)
    (st : ClientCache α) (inner : Option α) (fb : Except String α)
    (hstore : inner.isSome = true ∨ ∃ x, fb = Except.ok x) :
    ∃ d, (cachedFetchMiss key now st inner fb).cache = cacheSet st key ⟨d, now⟩ := by
  unfold cachedFetchMiss
  cases inner with
  | some d => exact ⟨d, rfl⟩
  | none =>
    rcases hstore with h | ⟨x, hx⟩
    · simp at h
    · subst hx
      exact ⟨x, rfl⟩

theorem cachedFetchE_eq_hit {α : Type} (key : String) (ttl now : Int)
    (st : ClientCache α) (inner : Option α) (fb : Except String α)
    (e : CacheEntry α) (h : cacheGet st key = some e)
    (hf : now - e.timestamp < ttl) :
    cachedFetchE key ttl now st inner fb = ⟨Except.ok e.data, st, false⟩ := by
  unfold cachedFetchE
  rw [h]
  exact if_pos hf

theorem cachedFetchE_eq_miss {α : Type} (key : String) (ttl now : Int)
    (st : ClientCache α) (inner : Option α) (fb : Except String α)
    (h : cacheGet st key = none ∨
      ∃ e, cacheGet st key = some e ∧ ¬ now - e.timestamp < ttl) :
    cachedFetchE key ttl now st inner fb = cachedFetchMiss key now st inner fb := by
  unfold cachedFetchE
  rcases h with h | ⟨e, h, hf⟩
  · rw [h]
  · rw [h]
    exact if_neg hf

theorem cachedFetchE_trichotomy {α : Type} (key : String) (ttl now : Int)
    (st : ClientCache α) (inner : Option α) (fb : Except String α) :
    (∃ e, cacheGet st key = some e ∧ now - e.timestamp < ttl ∧
      cachedFetchE key ttl now st inner fb = ⟨Except.ok e.data, st, false⟩)
    ∨ cachedFetchE key ttl now st inner fb = cachedFetchMiss key now st inner fb := by
  cases h : cacheGet st key with
  | none => exact Or.inr (cachedFetchE_eq_miss key ttl now st inner fb (Or.inl h))
  | some e =>
    by_cases hf : now - e.timestamp < ttl
    · exact Or.inl ⟨e, h ▸ rfl, hf, cachedFetchE_eq_hit key ttl now st inner fb e h hf⟩
    · exact Or.inr (cachedFetchE_eq_miss key ttl now st inner fb (Or.inr ⟨e, h, hf⟩))

theorem cachedFetchE_store {α : Type} (key : String) (ttl now : Int)
    (st : ClientCache α) (inner : Option α) (fb : Except String α)
    (hstore : inner.isSome = true ∨ ∃ x, fb = Except.ok x)
    (hinv : (cachedFetchE key ttl now st inner fb).innerInvoked = true) :
    ∃ d, (cachedFetchE key ttl now st inner fb).cache = cacheSet st key ⟨d, now⟩ := by
  rcases cachedFetchE_trichotomy key ttl now st inner fb with ⟨e, he, hf, heq⟩ | heq
  · rw [heq] at hinv
    cases hinv
  · rw [heq]
    exact cachedFetchMiss_store key now st inner fb hstore

theorem cachedFetchE_ok {α : Type} (key : String) (ttl now : Int)
    (st : ClientCache α) (inner : Option α) (f : α) :
    ∃ r, (cachedFetchE key ttl now st inner (Except.ok f)).outcome = Except.ok r := by
  rcases cachedFetchE_trichotomy key ttl now st inner (Except.ok f) with
    ⟨e, he, hf, heq⟩ | heq
  · rw [heq]
    exact ⟨e.data, rfl⟩
  · rw [heq]
    unfold cachedFetchMiss
    cases inner with
    | some d => exact ⟨d, rfl⟩
    | none => exact ⟨f, rfl⟩

theorem ratesQ_pos (c : String) (r : ℚ) (h : ratesQ c = some r) : 0 < r := by
  have hmem : ∀ p ∈ fallbackRatesList, 0 < p.2 := by
    intro p hp
    fin_cases hp <;> norm_num
  unfold ratesQ at h
  cases hfind : fallbackRatesList.find? (fun p => p.1 == c) with
  | none => rw [hfind] at h; cases h
  | some p =>
    rw [hfind] at h
    have := hmem p (List.mem_of_find?_eq_some hfind)
    cases h
    exact this

theorem ratesQ_ne_empty (c : String) (r : ℚ) (h : ratesQ c = some r) : c ≠ "" := by
  intro he
  subst he
  cases h

theorem convertPhpFetch_invoked (cache : Option (Int × ConvResp)) (now : Int)
    (upstream : Option UpstreamConvert) (frm toC : String) (amount : ℚ) :
    (convertPhpFetch cache now upstream frm toC amount).upstreamInvoked = true := by
  unfold convertPhpFetch
  cases upstream with
  | some d => rfl
  | none => rfl

theorem phpCatch_cases (frm toC : String) (amount : ℚ) :
    ((phpCatch frm toC amount).success = true
      ∧ (phpCatch frm toC amount).fallback = true
      ∧ (phpCatch frm toC amount).cached = some false
      ∧ (phpCatch frm toC amount).amount = amount)
    ∨ ((phpCatch frm toC amount).success = false
      ∧ (phpCatch frm toC amount).fallback = false
      ∧ (phpCatch frm toC amount).cached = none
      ∧ (phpCatch frm toC amount).error = some unsupportedMsg) := by
  unfold phpCatch
  cases ratesQ frm with
  | none => exact Or.inr ⟨rfl, rfl, rfl, rfl⟩
  | some rf =>
    cases ratesQ toC with
    | none => exact Or.inr ⟨rfl, rfl, rfl, rfl⟩
    | some rt => exact Or.inl ⟨rfl, rfl, rfl, rfl⟩

theorem convertPhpCachePart_none (now : Int) (u : Option UpstreamConvert)
    (frm toC : String) (amount : ℚ) :
    convertPhpCachePart none now u frm toC amount =
      convertPhpFetch none now u frm toC amount := rfl

theorem convertPhpCachePart_fresh (t : Int) (saved : ConvResp) (now : Int)
    (u : Option UpstreamConvert) (frm toC : String) (amount : ℚ)
    (hfr : now - t < convertCacheTime) :
    convertPhpCachePart (some (t, saved)) now u frm toC amount =
      ⟨{ saved with cached := some true }, some (t, saved), false⟩ := if_pos hfr

theorem convertPhpCachePart_stale (t : Int) (saved : ConvResp) (now : Int)
    (u : Option UpstreamConvert) (frm toC : String) (amount : ℚ)
    (hfr : ¬ now - t < convertCacheTime) :
    convertPhpCachePart (some (t, saved)) now u frm toC amount =
      convertPhpFetch (some (t, saved)) now u frm toC amount := if_neg hfr

theorem convertPhp_eq_main (cache : Option (Int × ConvResp)) (now : Int)
    (u : Option UpstreamConvert) (rawFrom rawTo : String) (amount : ℚ)
    (h0 : ¬(rawFrom = "" ∨ rawTo = "")) (ha : ¬ amount ≤ 0)
    (he : ¬ normCode rawFrom = normCode rawTo) :
    convertPhp cache now u rawFrom rawTo amount =
      convertPhpCachePart cache now u (normCode rawFrom) (normCode rawTo) amount := by
  unfold convertPhp
  rw [if_neg h0, if_neg ha, if_neg he]

/-- Every run of the convert endpoint is a catch-path run (cache untouched),
a cache hit (cache untouched), or a live fetch (cache overwritten). -/
theorem convertPhp_cases (cache : Option (Int × ConvResp)) (now : Int)
    (u : Option UpstreamConvert) (rawFrom rawTo : String) (amount : ℚ) :
    (∃ f t, (convertPhp cache now u rawFrom rawTo amount).resp = phpCatch f t amount
      ∧ (convertPhp cache now u rawFrom rawTo amount).cache = cache)
    ∨ (∃ t saved, cache = some (t, saved)
      ∧ (convertPhp cache now u rawFrom rawTo amount).resp = { saved with cached := some true }
      ∧ (convertPhp cache now u rawFrom rawTo amount).cache = cache)
    ∨ (∃ d, u = some d
      ∧ (convertPhp cache now u rawFrom rawTo amount).resp = convertLive d
      ∧ (convertPhp cache now u rawFrom rawTo amount).cache = some (now, convertLive d)) := by
  by_cases h0 : rawFrom = "" ∨ rawTo = ""
  · left
    refine ⟨rawFrom, rawTo, ?_, ?_⟩ <;> · unfold convertPhp; rw [if_pos h0]
  · by_cases ha : amount ≤ 0
    · left
      refine ⟨normCode rawFrom, normCode rawTo, ?_, ?_⟩ <;>
        · unfold convertPhp; rw [if_neg h0, if_pos ha]
    · by_cases he : normCode rawFrom = normCode rawTo
      · left
        refine ⟨normCode rawFrom, normCode rawTo, ?_, ?_⟩ <;>
          · unfold convertPhp; rw [if_neg h0, if_neg ha, if_pos he]
      · rw [convertPhp_eq_main cache now u rawFrom rawTo amount h0 ha he]
        rcases cache with _ | ⟨t, saved⟩
        · rw [convertPhpCachePart_none]
          unfold convertPhpFetch
          cases u with
          | some d => exact Or.inr (Or.inr ⟨d, rfl, rfl, rfl⟩)
          | none => exact Or.inl ⟨_, _, rfl, rfl⟩
        · by_cases hfr : now - t < convertCacheTime
          · rw [convertPhpCachePart_fresh t saved now u _ _ amount hfr]
            exact Or.inr (Or.inl ⟨t, saved, rfl, rfl, rfl⟩)
          · rw [convertPhpCachePart_stale t saved now u _ _ amount hfr]
            unfold convertPhpFetch
            cases u with
            | some d => exact Or.inr (Or.inr ⟨d, rfl, rfl, rfl⟩)
            | none => exact Or.inl ⟨_, _, rfl, rfl⟩

/-- With non-empty normalized parameters, a positive amount, a missing or
stale cache entry and a failing upstream, the convert endpoint answers with
the catch block on the normalized codes, leaving the cache unchanged. -/
theorem convertPhp_upstream_none (cache : Option (Int × ConvResp)) (now : Int)
    (frm toC : String) (amount : ℚ)
    (hfrm : frm ≠ "") (htoC : toC ≠ "")
    (hnf : normCode frm = frm) (hnt : normCode toC = toC)
    (ha : 0 < amount)
    (hstale : ∀ t s, cache = some (t, s) → convertCacheTime ≤ now - t) :
    (convertPhp cache now none frm toC amount).resp = phpCatch frm toC amount
    ∧ (convertPhp cache now none frm toC amount).cache = cache
    ∧ ((¬ frm = toC) → (convertPhp cache now none frm toC amount).upstreamInvoked = true) := by
  have h0 : ¬(frm = "" ∨ toC = "") := by push_neg; exact ⟨hfrm, htoC⟩
  have ha' : ¬ amount ≤ 0 := not_le.mpr ha
  by_cases he : frm = toC
  · refine ⟨?_, ?_, fun hne => absurd he hne⟩ <;>
      · unfold convertPhp
        rw [if_neg h0]
        simp only [hnf, hnt]
        rw [if_neg ha', if_pos he]
  · have heq := convertPhp_eq_main cache now none frm toC amount h0 ha'
      (by rw [hnf, hnt]; exact he)
    rw [hnf, hnt] at heq
    rcases cache with _ | ⟨t, saved⟩
    · rw [heq, convertPhpCachePart_none]
      exact ⟨rfl, rfl, fun _ => rfl⟩
    · rw [heq, convertPhpCachePart_stale t saved now none frm toC amount
        (not_lt.mpr (hstale t saved rfl))]
      exact ⟨rfl, rfl, fun _ => rfl⟩

/-- A run of the convert endpoint with valid distinct parameters that
invoked a successful upstream has written the cache file: the new entry is
the live response stamped with the request time. -/
theorem convertPhp_live_store (cache : Option (Int × ConvResp)) (now : Int)
    (d : UpstreamConvert) (rawFrom rawTo : String) (amount : ℚ)
    (h0 : ¬(rawFrom = "" ∨ rawTo = "")) (ha : ¬ amount ≤ 0)
    (he : ¬ normCode rawFrom = normCode rawTo)
    (hinv : (convertPhp cache now (some d) rawFrom rawTo amount).upstreamInvoked = true) :
    (convertPhp cache now (some d) rawFrom rawTo amount).cache
      = some (now, convertLive d) := by
  rw [convertPhp_eq_main cache now (some d) rawFrom rawTo amount h0 ha he] at hinv ⊢
  rcases cache with _ | ⟨t, saved⟩
  · rw [convertPhpCachePart_none]
    rfl
  · by_cases hfr : now - t < convertCacheTime
    · rw [convertPhpCachePart_fresh t saved now (some d) _ _ amount hfr] at hinv
      cases hinv
    · rw [convertPhpCachePart_stale t saved now (some d) _ _ amount hfr]
      rfl

/-- A run of the convert endpoint with valid distinct parameters, a missing
or stale cache entry and a failing upstream invokes the upstream but stores
nothing: the cache is exactly as before. -/
theorem convertPhp_none_no_store (cache : Option (Int × ConvResp)) (now : Int)
    (rawFrom rawTo : String) (amount : ℚ)
    (h0 : ¬(rawFrom = "" ∨ rawTo = "")) (ha : ¬ amount ≤ 0)
    (he : ¬ normCode rawFrom = normCode rawTo)
    (hstale : ∀ t s, cache = some (t, s) → convertCacheTime ≤ now - t) :
    (convertPhp cache now none rawFrom rawTo amount).cache = cache
    ∧ (convertPhp cache now none rawFrom rawTo amount).upstreamInvoked = true := by
  rw [convertPhp_eq_main cache now none rawFrom rawTo amount h0 ha he]
  rcases cache with _ | ⟨t, saved⟩
  · rw [convertPhpCachePart_none]
    exact ⟨rfl, rfl⟩
  · rw [convertPhpCachePart_stale t saved now none _ _ amount
      (not_lt.mpr (hstale t saved rfl))]
    exact ⟨rfl, rfl⟩

theorem symbolsPhpFetch_invoked (cache : Option (Int × SymbolsResp)) (now : Int)
    (upstream : Option (List (String × SymbolInfo))) :
    (symbolsPhpFetch cache now upstream).2.2 = true := by
  unfold symbolsPhpFetch
  cases upstream with
  | some syms => rfl
  | none => rfl

theorem symbolsPhp_fresh (t : Int) (saved : SymbolsResp) (now : Int)
    (upstream : Option (List (String × SymbolInfo)))
    (hfr : now - t < symbolsCacheTime) :
    symbolsPhp (some (t, saved)) now upstream
      = (saved, some (t, saved), false) := if_pos hfr

theorem symbolsPhp_stale (t : Int) (saved : SymbolsResp) (now : Int)
    (upstream : Option (List (String × SymbolInfo)))
    (hfr : ¬ now - t < symbolsCacheTime) :
    symbolsPhp (some (t, saved)) now upstream
      = symbolsPhpFetch (some (t, saved)) now upstream := if_neg hfr

theorem clientConvert_invalid (backend : Option ConvResp) (frm toC : String)
    (amount : ℚ) (hv : frm = "" ∨ toC = "" ∨ amount ≤ 0) :
    clientConvert backend frm toC amount = ⟨Except.error invalidParamsMsg, false⟩ := by
  unfold clientConvert
  rw [if_pos hv]

theorem clientConvert_backend_some (d : ConvResp) (frm toC : String) (amount : ℚ)
    (hv : ¬(frm = "" ∨ toC = "" ∨ amount ≤ 0)) :
    clientConvert (some d) frm toC amount = ⟨Except.ok d, true⟩ := by
  unfold clientConvert
  rw [if_neg hv]

theorem clientConvert_fallback (frm toC : String) (amount : ℚ) (rf rt : ℚ)
    (hv : ¬(frm = "" ∨ toC = "" ∨ amount ≤ 0))
    (hf : ratesQ (upperAscii frm) = some rf)
    (ht : ratesQ (upperAscii toC) = some rt) :
    clientConvert none frm toC amount =
      ⟨Except.ok { success := true, frm := upperAscii frm, toC := upperAscii toC,
                   amount := amount, result := round2 (amount * (rt / rf)),
                   rate := round6 (rt / rf), fallback := true }, true⟩ := by
  unfold clientConvert
  rw [if_neg hv]
  simp only [hf, ht]

theorem clientConvert_unsupported (frm toC : String) (amount : ℚ)
    (hv : ¬(frm = "" ∨ toC = "" ∨ amount ≤ 0))
    (hmiss : ratesQ (upperAscii frm) = none ∨ ratesQ (upperAscii toC) = none) :
    clientConvert none frm toC amount = ⟨Except.error unsupportedMsg, true⟩ := by
  unfold clientConvert
  rw [if_neg hv]
  rcases hmiss with h | h
  · cases h2 : ratesQ (upperAscii toC) with
    | none => simp only [h, h2]
    | some rt => simp only [h, h2]
  · cases h2 : ratesQ (upperAscii frm) with
    | none => simp only [h2, h]
    | some rf => simp only [h2, h]

theorem phpCatch_supported (frm toC : String) (amount rf rt : ℚ)
    (hf : ratesQ frm = some rf) (ht : ratesQ toC = some rt) :
    phpCatch frm toC amount =
      { success := true, frm := frm, toC := toC, amount := amount,
        result := round2 (amount * (rt / rf)), rate := round6 (rt / rf),
        cached := some false, fallback := true } := by
  unfold phpCatch
  simp only [hf, ht]

theorem phpCatch_unsupported (frm toC : String) (amount : ℚ)
    (hmiss : ratesQ frm = none ∨ ratesQ toC = none) :
    phpCatch frm toC amount = { success := false, error := some unsupportedMsg } := by
  unfold phpCatch
  rcases hmiss with h | h
  · cases h2 : ratesQ toC with
    | none => simp only [h, h2]
    | some rt => simp only [h, h2]
  · cases h2 : ratesQ frm with
    | none => simp only [h2, h]
    | some rf => simp only [h2, h]

/-! ### Claims -/

/-- C1: for every currency pair with both codes in the static fallback
table and every positive amount, when the back-end/upstream tier fails both
the client module's `convert` and the server convert endpoint still answer
successfully with `fallback = true`, `rate = table[to]/table[from]` rounded
to 6 decimal places, and `result = amount * (table[to]/table[from])`
rounded to 2 decimal places. -/
theorem fallback_convert_success (frm toC : String) (rf rt amount : ℚ) (now : Int)
    (cache : Option (Int × ConvResp))
    (hf : ratesQ frm = some rf) (ht : ratesQ toC = some rt) (ha : 0 < amount)
    (hfu : upperAscii frm = frm) (htu : upperAscii toC = toC)
    (hft : trimAscii frm = frm) (htt : trimAscii toC = toC)
    (hstale : ∀ t s, cache = some (t, s) → convertCacheTime ≤ now - t) :
    (clientConvert none frm toC amount).outcome =
      Except.ok { success := true, frm := frm, toC := toC, amount := amount,
                  result := round2 (amount * (rt / rf)), rate := round6 (rt / rf),
                  fallback := true }
    ∧ (convertPhp cache now none frm toC amount).resp =
      { success := true, frm := frm, toC := toC, amount := amount,
        result := round2 (amount * (rt / rf)), rate := round6 (rt / rf),
        cached := some false, fallback := true } := by
  have hfrm : frm ≠ "" := ratesQ_ne_empty frm rf hf
  have htoC : toC ≠ "" := ratesQ_ne_empty toC rt ht
  have hv : ¬(frm = "" ∨ toC = "" ∨ amount ≤ 0) := by
    push_neg
    exact ⟨hfrm, htoC, ha⟩
  constructor
  · rw [clientConvert_fallback frm toC amount rf rt hv (by rw [hfu]; exact hf)
      (by rw [htu]; exact ht)]
    rw [hfu, htu]
  · have hnf : normCode frm = frm := by unfold normCode; rw [hft, hfu]
    have hnt : normCode toC = toC := by unfold normCode; rw [htt, htu]
    have := convertPhp_upstream_none cache now frm toC amount hfrm htoC hnf hnt ha hstale
    rw [this.1]
    exact phpCatch_supported frm toC amount rf rt hf ht

/-- Witness for C1 at the spec's own example: RUB → USD, amount 100, static
rates RUB = 75 and USD = 1, with an empty cache and a failing upstream. -/
theorem fallback_convert_success_witness :
    (clientConvert none "RUB" "USD" 100).outcome =
      Except.ok { success := true, frm := "RUB", toC := "USD", amount := 100,
                  result := round2 (100 * ((1 : ℚ) / 75)), rate := round6 ((1 : ℚ) / 75),
                  fallback := true }
    ∧ (convertPhp none 0 none "RUB" "USD" 100).resp =
      { success := true, frm := "RUB", toC := "USD", amount := 100,
        result := round2 (100 * ((1 : ℚ) / 75)), rate := round6 ((1 : ℚ) / 75),
        cached := some false, fallback := true } :=
  fallback_convert_success "RUB" "USD" 75 1 100 0 none rfl rfl
    (by norm_num) (by decide) (by decide) (by decide) (by decide)
    (fun t s h => nomatch h)

/-- C2 counterexample: the claim requires the unsupported-currency failure
to be surfaced only after both tiers have been exhausted, but the server
convert endpoint surfaces it for a same-currency request (here XYZ → XYZ)
without ever attempting the upstream fetch — both when the upstream would
fail and when a working upstream is available. -/
theorem unsupported_before_upstream_cex :
    (convertPhp none 0 none "XYZ" "XYZ" 10).resp.error = some unsupportedMsg
    ∧ (convertPhp none 0 none "XYZ" "XYZ" 10).upstreamInvoked = false
    ∧ (convertPhp none 0 (some ⟨"XYZ", "XYZ", 10, 10, 1⟩) "XYZ" "XYZ" 10).resp.error
        = some unsupportedMsg
    ∧ (convertPhp none 0 (some ⟨"XYZ", "XYZ", 10, 10, 1⟩) "XYZ" "XYZ" 10).upstreamInvoked
        = false := by
  decide

/-- C2 (amended): a conversion whose codes are missing from both tiers fails
with the unsupported-currency error; in the client module this error is
surfaced only after the back-end attempt has failed, and on the server — for
distinct, valid parameters — only after the upstream fetch was attempted and
failed (a same-currency or invalid request reaches the same error without
touching upstream, see the counterexample). -/
theorem unsupported_after_primary_failure (frm toC : String) (amount : ℚ)
    (now : Int)
    (hfrm : frm ≠ "") (htoC : toC ≠ "") (ha : 0 < amount)
    (hfu : upperAscii frm = frm) (htu : upperAscii toC = toC)
    (hft : trimAscii frm = frm) (htt : trimAscii toC = toC)
    (hne : frm ≠ toC)
    (hmiss : ratesQ frm = none ∨ ratesQ toC = none) :
    (clientConvert none frm toC amount).outcome = Except.error unsupportedMsg
    ∧ (∀ backend, (clientConvert backend frm toC amount).outcome =
        Except.error unsupportedMsg → backend = none)
    ∧ (convertPhp none now none frm toC amount).resp =
        { success := false, error := some unsupportedMsg }
    ∧ (convertPhp none now none frm toC amount).upstreamInvoked = true
    ∧ (∀ u, (convertPhp none now u frm toC amount).resp.error = some unsupportedMsg →
        u = none) := by
  have hv : ¬(frm = "" ∨ toC = "" ∨ amount ≤ 0) := by
    push_neg
    exact ⟨hfrm, htoC, ha⟩
  have hnf : normCode frm = frm := by unfold normCode; rw [hft, hfu]
  have hnt : normCode toC = toC := by unfold normCode; rw [htt, htu]
  have hmiss' : ratesQ (upperAscii frm) = none ∨ ratesQ (upperAscii toC) = none := by
    rw [hfu, htu]; exact hmiss
  have hmsg : invalidParamsMsg ≠ unsupportedMsg := by decide
  have hserver := convertPhp_upstream_none none now frm toC amount hfrm htoC hnf hnt ha
    (fun t s h => nomatch h)
  refine ⟨?_, ?_, ?_, ?_, ?_⟩
  · rw [clientConvert_unsupported frm toC amount hv hmiss']
  · intro backend h
    cases backend with
    | none => rfl
    | some d =>
      rw [clientConvert_backend_some d frm toC amount hv] at h
      cases h
  · rw [hserver.1]
    exact phpCatch_unsupported frm toC amount hmiss
  · exact hserver.2.2 hne
  · intro u h
    cases u with
    | none => rfl
    | some d =>
      have hne' : ¬ normCode frm = normCode toC := by rw [hnf, hnt]; exact hne
      rw [convertPhp_eq_main none now (some d) frm toC amount
        (by push_neg; exact ⟨hfrm, htoC⟩) (not_le.mpr ha) hne',
        convertPhpCachePart_none] at h
      cases h

/-- Witness for C2 at XYZ → USD, amount 10: XYZ is in neither tier. -/
theorem unsupported_after_primary_failure_witness :
    (clientConvert none "XYZ" "USD" 10).outcome = Except.error unsupportedMsg
    ∧ (∀ backend, (clientConvert backend "XYZ" "USD" 10).outcome =
        Except.error unsupportedMsg → backend = none)
    ∧ (convertPhp none 0 none "XYZ" "USD" 10).resp =
        { success := false, error := some unsupportedMsg }
    ∧ (convertPhp none 0 none "XYZ" "USD" 10).upstreamInvoked = true
    ∧ (∀ u, (convertPhp none 0 u "XYZ" "USD" 10).resp.error = some unsupportedMsg →
        u = none) :=
  unsupported_after_primary_failure "XYZ" "USD" 10 0 (by decide) (by decide)
    (by norm_num) (by decide) (by decide) (by decide) (by decide) (by decide)
    (Or.inl rfl)

/-- C3: `getSymbols` never fails — every execution returns a symbol table;
when the cache cannot serve and the primary tier fails, both the client
module and the symbols endpoint answer with their built-in fallback table
marked `fallback = true`. -/
theorem getSymbols_never_fails (st : ClientCache SymbolsResp) (now : Int)
    (inner : Option SymbolsResp) (cache : Option (Int × SymbolsResp)) (now2 : Int) :
    (∃ r, (clientGetSymbols st now inner).outcome = Except.ok r)
    ∧ (inner = none →
        (∀ e, cacheGet st "symbols" = some e → clientCacheTimeout ≤ now - e.timestamp) →
        (clientGetSymbols st now inner).outcome = Except.ok clientFallbackSymbolsResp
        ∧ clientFallbackSymbolsResp.fallback = true)
    ∧ ((∀ t saved, cache = some (t, saved) → symbolsCacheTime ≤ now2 - t) →
        (symbolsPhp cache now2 none).1 = serverFallbackSymbolsResp
        ∧ serverFallbackSymbolsResp.fallback = true) := by
  refine ⟨?_, ?_, ?_⟩
  · exact cachedFetchE_ok "symbols" clientCacheTimeout now st inner
      clientFallbackSymbolsResp
  · intro hi hstale
    subst hi
    have hmiss : cacheGet st "symbols" = none ∨
        ∃ e, cacheGet st "symbols" = some e ∧ ¬ now - e.timestamp < clientCacheTimeout := by
      cases h : cacheGet st "symbols" with
      | none => exact Or.inl rfl
      | some e => exact Or.inr ⟨e, rfl, not_lt.mpr (hstale e h)⟩
    unfold clientGetSymbols
    rw [cachedFetchE_eq_miss "symbols" clientCacheTimeout now st none
      (Except.ok clientFallbackSymbolsResp) hmiss]
    exact ⟨rfl, rfl⟩
  · intro hstale
    rcases cache with _ | ⟨t, saved⟩
    · exact ⟨rfl, rfl⟩
    · have heq : symbolsPhp (some (t, saved)) now2 none =
          symbolsPhpFetch (some (t, saved)) now2 none :=
        if_neg (not_lt.mpr (hstale t saved rfl))
      rw [heq]
      exact ⟨rfl, rfl⟩

/-- Witness for C3: empty client cache and server cache, failing primaries. -/
theorem getSymbols_never_fails_witness :
    (∃ r, (clientGetSymbols [] 0 none).outcome = Except.ok r)
    ∧ (none = (none : Option SymbolsResp) →
        (∀ e, cacheGet ([] : ClientCache SymbolsResp) "symbols" = some e →
          clientCacheTimeout ≤ 0 - e.timestamp) →
        (clientGetSymbols [] 0 none).outcome = Except.ok clientFallbackSymbolsResp
        ∧ clientFallbackSymbolsResp.fallback = true)
    ∧ ((∀ t saved, (none : Option (Int × SymbolsResp)) = some (t, saved) →
          symbolsCacheTime ≤ 0 - t) →
        (symbolsPhp none 0 none).1 = serverFallbackSymbolsResp
        ∧ serverFallbackSymbolsResp.fallback = true) :=
  getSymbols_never_fails [] 0 none none 0

/-- C4 counterexample: the claim's at-most-once cache property fails for the
`convert` operation — the client module's `convert` consults no cache, so
two identical calls in the same TTL window (here back-to-back calls with a
reachable back-end) both invoke the inner source: two inner calls, not at
most one, and the second call is not served from any cache. -/
theorem convert_has_no_cache_cex :
    (clientConvert (some { success := true }) "USD" "EUR" 100).innerInvoked = true
    ∧ (clientConvert (some { success := true }) "USD" "EUR" 100).innerInvoked.toNat
      + (clientConvert (some { success := true }) "USD" "EUR" 100).innerInvoked.toNat = 2
    ∧ ¬((clientConvert (some { success := true }) "USD" "EUR" 100).innerInvoked.toNat
      + (clientConvert (some { success := true }) "USD" "EUR" 100).innerInvoked.toNat ≤ 1) := by
  rw [clientConvert_backend_some { success := true } "USD" "EUR" 100 (by decide)]
  exact ⟨rfl, rfl, by decide⟩

/-- C4 (amended): for the cached client operations (`getSymbols`,
`getTimeSeries`) the claim holds — two calls with the same key inside one
TTL window invoke the inner source at most once (provided the first call
produced a value to store: a live response or an available fallback), and a
call made once the TTL has elapsed since the stored entry invokes the inner
source again. The server convert endpoint caches an entry only on a
successful upstream fetch: after a live success an identical request inside
the TTL window does not invoke upstream again, after the TTL it does, and a
fallback-served request stores nothing — the cache is unchanged and an
identical repeat invokes upstream once more. The client `convert`, however,
performs no caching and invokes the inner source on every call with valid
parameters. -/
theorem cache_at_most_once_and_refetch {α : Type} (key : String)
    (ttl now₁ now₂ : Int) (st : ClientCache α) (inner₁ inner₂ : Option α)
    (fb₁ fb₂ : Except String α)
    (cache : Option (Int × ConvResp)) (snow₁ snow₂ : Int) (d : UpstreamConvert)
    (u₂ : Option UpstreamConvert) (rawFrom rawTo : String) (amount : ℚ)
    (hstore : inner₁.isSome = true ∨ ∃ x, fb₁ = Except.ok x)
    (h0 : ¬(rawFrom = "" ∨ rawTo = "")) (ha : ¬ amount ≤ 0)
    (he : ¬ normCode rawFrom = normCode rawTo) :
    (now₂ - now₁ < ttl →
      ¬((cachedFetchE key ttl now₁ st inner₁ fb₁).innerInvoked = true
        ∧ (cachedFetchE key ttl now₂
            (cachedFetchE key ttl now₁ st inner₁ fb₁).cache inner₂ fb₂).innerInvoked = true))
    ∧ ((cachedFetchE key ttl now₁ st inner₁ fb₁).innerInvoked = true →
        ttl ≤ now₂ - now₁ →
        (cachedFetchE key ttl now₂
          (cachedFetchE key ttl now₁ st inner₁ fb₁).cache inner₂ fb₂).innerInvoked = true)
    ∧ (∀ backend f t a, ¬(f = "" ∨ t = "" ∨ a ≤ 0) →
        (clientConvert backend f t a).innerInvoked = true)
    ∧ (snow₂ - snow₁ < convertCacheTime →
      ¬((convertPhp cache snow₁ (some d) rawFrom rawTo amount).upstreamInvoked = true
        ∧ (convertPhp (convertPhp cache snow₁ (some d) rawFrom rawTo amount).cache
            snow₂ u₂ rawFrom rawTo amount).upstreamInvoked = true))
    ∧ ((convertPhp cache snow₁ (some d) rawFrom rawTo amount).upstreamInvoked = true →
        convertCacheTime ≤ snow₂ - snow₁ →
        (convertPhp (convertPhp cache snow₁ (some d) rawFrom rawTo amount).cache
          snow₂ u₂ rawFrom rawTo amount).upstreamInvoked = true)
    ∧ (∀ (c : Option (Int × ConvResp)),
        (∀ t s, c = some (t, s) → convertCacheTime ≤ snow₁ - t) →
        (convertPhp c snow₁ none rawFrom rawTo amount).cache = c
        ∧ (convertPhp c snow₁ none rawFrom rawTo amount).upstreamInvoked = true
        ∧ (convertPhp (convertPhp c snow₁ none rawFrom rawTo amount).cache snow₁ none
            rawFrom rawTo amount).upstreamInvoked = true) := by
  refine ⟨?_, ?_, ?_, ?_, ?_, ?_⟩
  · rintro hlt ⟨h₁, h₂⟩
    obtain ⟨d', hc⟩ := cachedFetchE_store key ttl now₁ st inner₁ fb₁ hstore h₁
    have hfresh : (cachedFetchE key ttl now₂
        (cachedFetchE key ttl now₁ st inner₁ fb₁).cache inner₂ fb₂).innerInvoked = false :=
      (cachedFetchE_hit_iff key ttl now₂ _ inner₂ fb₂).mpr
        ⟨⟨d', now₁⟩, by rw [hc]; exact cacheGet_cacheSet st key ⟨d', now₁⟩, by simpa using hlt⟩
    rw [h₂] at hfresh
    cases hfresh
  · intro h₁ hge
    obtain ⟨d', hc⟩ := cachedFetchE_store key ttl now₁ st inner₁ fb₁ hstore h₁
    rcases Bool.eq_false_or_eq_true ((cachedFetchE key ttl now₂
        (cachedFetchE key ttl now₁ st inner₁ fb₁).cache inner₂ fb₂).innerInvoked) with h₂ | h₂
    · exact h₂
    · exfalso
      obtain ⟨e, he', hf⟩ := (cachedFetchE_hit_iff key ttl now₂ _ inner₂ fb₂).mp h₂
      rw [hc, cacheGet_cacheSet] at he'
      cases he'
      simp only [CacheEntry.timestamp] at hf
      omega
  · intro backend f t a hv
    cases backend with
    | some d' => rw [clientConvert_backend_some d' f t a hv]
    | none =>
      unfold clientConvert
      rw [if_neg hv]
      cases hf : ratesQ (upperAscii f) with
      | none =>
        cases ht : ratesQ (upperAscii t) with
        | none => simp only [hf, ht]
        | some rt => simp only [hf, ht]
      | some rf =>
        cases ht : ratesQ (upperAscii t) with
        | none => simp only [hf, ht]
        | some rt => simp only [hf, ht]
  · rintro hlt ⟨h₁, h₂⟩
    have hst := convertPhp_live_store cache snow₁ d rawFrom rawTo amount h0 ha he h₁
    have hb : (convertPhp (convertPhp cache snow₁ (some d) rawFrom rawTo amount).cache
        snow₂ u₂ rawFrom rawTo amount).upstreamInvoked = false := by
      rw [hst, convertPhp_eq_main _ snow₂ u₂ rawFrom rawTo amount h0 ha he,
        convertPhpCachePart_fresh snow₁ (convertLive d) snow₂ u₂ _ _ amount hlt]
    rw [h₂] at hb
    cases hb
  · intro h₁ hge
    have hst := convertPhp_live_store cache snow₁ d rawFrom rawTo amount h0 ha he h₁
    rw [hst, convertPhp_eq_main _ snow₂ u₂ rawFrom rawTo amount h0 ha he,
      convertPhpCachePart_stale snow₁ (convertLive d) snow₂ u₂ _ _ amount
        (not_lt.mpr hge)]
    exact convertPhpFetch_invoked _ snow₂ u₂ _ _ amount
  · intro c hstale
    have h := convertPhp_none_no_store c snow₁ rawFrom rawTo amount h0 ha he hstale
    refine ⟨h.1, h.2, ?_⟩
    rw [h.1]
    exact h.2

/-- Witness for C4 (amended) on a concrete run: client key "symbols" with
the client TTL, calls at times 0 and 1000 with a live inner source; server
convert USD → EUR, amount 100, empty cache, a live upstream at time 0 and a
second request at time 100. -/
theorem cache_at_most_once_and_refetch_witness :
    ((1000 : Int) - 0 < clientCacheTimeout →
      ¬((cachedFetchE "symbols" clientCacheTimeout 0 ([] : ClientCache ℕ)
          (some 7) (Except.error "down")).innerInvoked = true
        ∧ (cachedFetchE "symbols" clientCacheTimeout 1000
            (cachedFetchE "symbols" clientCacheTimeout 0 ([] : ClientCache ℕ)
              (some 7) (Except.error "down")).cache
            (some 8) (Except.error "down")).innerInvoked = true))
    ∧ ((cachedFetchE "symbols" clientCacheTimeout 0 ([] : ClientCache ℕ)
          (some 7) (Except.error "down")).innerInvoked = true →
        clientCacheTimeout ≤ (1000 : Int) - 0 →
        (cachedFetchE "symbols" clientCacheTimeout 1000
          (cachedFetchE "symbols" clientCacheTimeout 0 ([] : ClientCache ℕ)
            (some 7) (Except.error "down")).cache
          (some 8) (Except.error "down")).innerInvoked = true)
    ∧ (∀ backend f t a, ¬(f = "" ∨ t = "" ∨ a ≤ 0) →
        (clientConvert backend f t a).innerInvoked = true)
    ∧ ((100 : Int) - 0 < convertCacheTime →
      ¬((convertPhp none 0 (some ⟨"USD", "EUR", 100, 85, 85/100⟩)
            "USD" "EUR" 100).upstreamInvoked = true
        ∧ (convertPhp (convertPhp none 0 (some ⟨"USD", "EUR", 100, 85, 85/100⟩)
              "USD" "EUR" 100).cache
            100 none "USD" "EUR" 100).upstreamInvoked = true))
    ∧ ((convertPhp none 0 (some ⟨"USD", "EUR", 100, 85, 85/100⟩)
          "USD" "EUR" 100).upstreamInvoked = true →
        convertCacheTime ≤ (100 : Int) - 0 →
        (convertPhp (convertPhp none 0 (some ⟨"USD", "EUR", 100, 85, 85/100⟩)
            "USD" "EUR" 100).cache
          100 none "USD" "EUR" 100).upstreamInvoked = true)
    ∧ (∀ (c : Option (Int × ConvResp)),
        (∀ t s, c = some (t, s) → convertCacheTime ≤ (0 : Int) - t) →
        (convertPhp c 0 none "USD" "EUR" 100).cache = c
        ∧ (convertPhp c 0 none "USD" "EUR" 100).upstreamInvoked = true
        ∧ (convertPhp (convertPhp c 0 none "USD" "EUR" 100).cache 0 none
            "USD" "EUR" 100).upstreamInvoked = true) :=
  cache_at_most_once_and_refetch "symbols" clientCacheTimeout 0 1000 [] (some 7)
    (some 8) (Except.error "down") (Except.error "down") none 0 100
    ⟨"USD", "EUR", 100, 85, 85/100⟩ none "USD" "EUR" 100 (Or.inl rfl)
    (by decide) (by norm_num) (by decide)

theorem timeseriesPhp_eq_main (cache : Option (Int × TsPhpResp)) (now : Int)
    (u : Option (List (Int × ℚ))) (v : ℕ → ℤ) (today : Int)
    (rawFrom rawTo : String) (rawDays : Int)
    (h0 : ¬(rawFrom = "" ∨ rawTo = "")) :
    timeseriesPhp cache now u v today rawFrom rawTo rawDays =
      timeseriesPhpCachePart cache now u v today
        (normCode rawFrom) (normCode rawTo) (clampDays rawDays) := by
  unfold timeseriesPhp
  rw [if_neg h0]

theorem timeseriesPhpCachePart_fresh (t : Int) (saved : TsPhpResp) (now : Int)
    (u : Option (List (Int × ℚ))) (v : ℕ → ℤ) (today : Int)
    (frm toC : String) (d : Int) (hfr : now - t < timeseriesCacheTime) :
    timeseriesPhpCachePart (some (t, saved)) now u v today frm toC d =
      ⟨{ saved with cached := some true }, some (t, saved), false⟩ := if_pos hfr

theorem timeseriesPhpCachePart_stale (t : Int) (saved : TsPhpResp) (now : Int)
    (u : Option (List (Int × ℚ))) (v : ℕ → ℤ) (today : Int)
    (frm toC : String) (d : Int) (hfr : ¬ now - t < timeseriesCacheTime) :
    timeseriesPhpCachePart (some (t, saved)) now u v today frm toC d =
      timeseriesPhpFetch (some (t, saved)) now u v today frm toC d := if_neg hfr

theorem timeseriesPhpFetch_invoked (cache : Option (Int × TsPhpResp)) (now : Int)
    (u : Option (List (Int × ℚ))) (v : ℕ → ℤ) (today : Int)
    (frm toC : String) (d : Int) :
    (timeseriesPhpFetch cache now u v today frm toC d).upstreamInvoked = true := by
  unfold timeseriesPhpFetch
  cases u with
  | some rs => rfl
  | none => rfl

def demoSymbolsResp : SymbolsResp := { success := true }

def demoTsResp : TsPhpResp := { success := true }

def zStream : ℕ → ℤ := fun _ => 0

/-- C5 counterexample: the per-kind TTLs the claim states do not match the
code. A 20-minute-old symbols entry (1,200,000 ms) is already stale for the
client module (it re-invokes the inner source), although 20 minutes is well
inside the claimed ~1-hour symbols TTL; and a 20-minute-old (1,200 s)
timeseries cache entry is still served as fresh by the server endpoint,
although the claim gives timeseries a ~5-minute TTL. -/
theorem ttl_values_cex :
    (clientGetSymbols [("symbols", ⟨demoSymbolsResp, 0⟩)] 1200000
      (some demoSymbolsResp)).innerInvoked = true
    ∧ (1200000 : Int) < 3600000
    ∧ (timeseriesPhp (some (0, demoTsResp)) 1200 none zStream 0 "USD" "EUR" 30).resp.cached
        = some true
    ∧ (timeseriesPhp (some (0, demoTsResp)) 1200 none zStream 0 "USD" "EUR" 30).upstreamInvoked
        = false
    ∧ (300 : Int) ≤ 1200 := by
  have h : timeseriesPhp (some (0, demoTsResp)) 1200 none zStream 0 "USD" "EUR" 30 =
      ⟨{ demoTsResp with cached := some true }, some (0, demoTsResp), false⟩ := by
    rw [timeseriesPhp_eq_main (some (0, demoTsResp)) 1200 none zStream 0
        "USD" "EUR" 30 (by decide),
      timeseriesPhpCachePart_fresh 0 demoTsResp 1200 none zStream 0
        (normCode "USD") (normCode "EUR") (clampDays 30) (by decide)]
  exact ⟨by decide, by decide, by rw [h], by rw [h], by decide⟩

/-- C5 (amended): in every caching component — the client cache and the
convert, timeseries and symbols endpoints — an entry is served as fresh
exactly when `now - storedAt < ttl` (stale exactly at `≥ ttl`), but the TTL
values are: a single 5-minute TTL (300,000 ms) for all three client-module
operations — symbols included — and, on the server, 1 hour for symbols,
5 minutes for convert, and 30 minutes (not ~5) for timeseries. -/
theorem staleness_and_ttl_constants :
    clientCacheTimeout = 300000
    ∧ convertCacheTime = 300
    ∧ symbolsCacheTime = 3600
    ∧ timeseriesCacheTime = 1800
    ∧ (∀ (α : Type) (key : String) (ttl now : Int) (st : ClientCache α)
        (inner : Option α) (fb : Except String α) (e : CacheEntry α),
        cacheGet st key = some e →
        ((cachedFetchE key ttl now st inner fb).innerInvoked = false ↔
          now - e.timestamp < ttl))
    ∧ (∀ (t : Int) (saved : ConvResp) (now : Int) (u : Option UpstreamConvert)
        (rawFrom rawTo : String) (amount : ℚ),
        ¬(rawFrom = "" ∨ rawTo = "") → ¬ amount ≤ 0 →
        ¬ normCode rawFrom = normCode rawTo →
        ((convertPhp (some (t, saved)) now u rawFrom rawTo amount).upstreamInvoked = false ↔
          now - t < convertCacheTime))
    ∧ (∀ (t : Int) (saved : TsPhpResp) (now : Int) (u : Option (List (Int × ℚ)))
        (v : ℕ → ℤ) (today : Int) (rawFrom rawTo : String) (rawDays : Int),
        ¬(rawFrom = "" ∨ rawTo = "") →
        ((timeseriesPhp (some (t, saved)) now u v today rawFrom rawTo rawDays).upstreamInvoked
            = false ↔ now - t < timeseriesCacheTime))
    ∧ (∀ (t : Int) (saved : SymbolsResp) (now : Int)
        (u : Option (List (String × SymbolInfo))),
        ((symbolsPhp (some (t, saved)) now u).2.2 = false ↔
          now - t < symbolsCacheTime)) := by
  refine ⟨rfl, rfl, rfl, rfl, ?_, ?_, ?_, ?_⟩
  · intro α key ttl now st inner fb e he
    rw [cachedFetchE_hit_iff]
    constructor
    · rintro ⟨e', he', hf⟩
      rw [he] at he'
      cases he'
      exact hf
    · intro hf
      exact ⟨e, he, hf⟩
  · intro t saved now u rawFrom rawTo amount h0 ha he
    rw [convertPhp_eq_main (some (t, saved)) now u rawFrom rawTo amount h0 ha he]
    by_cases hfr : now - t < convertCacheTime
    · rw [convertPhpCachePart_fresh t saved now u _ _ amount hfr]
      simpa using hfr
    · rw [convertPhpCachePart_stale t saved now u _ _ amount hfr]
      simp [convertPhpFetch_invoked, hfr]
  · intro t saved now u v today rawFrom rawTo rawDays h0
    rw [timeseriesPhp_eq_main (some (t, saved)) now u v today rawFrom rawTo rawDays h0]
    by_cases hfr : now - t < timeseriesCacheTime
    · rw [timeseriesPhpCachePart_fresh t saved now u v today _ _ _ hfr]
      simpa using hfr
    · rw [timeseriesPhpCachePart_stale t saved now u v today _ _ _ hfr]
      simp [timeseriesPhpFetch_invoked, hfr]
  · intro t saved now u
    by_cases hfr : now - t < symbolsCacheTime
    · rw [symbolsPhp_fresh t saved now u hfr]
      simpa using hfr
    · rw [symbolsPhp_stale t saved now u hfr]
      simp [symbolsPhpFetch_invoked, hfr]

/-- Witness for C5 (amended) on concrete entries: a client entry stored at
time 0 queried at time 100, and a convert, a timeseries and a symbols cache
entry each stored at 0 and queried at 100. -/
theorem staleness_and_ttl_constants_witness :
    ((clientGetSymbols [("symbols", ⟨demoSymbolsResp, 0⟩)] 100
        (some demoSymbolsResp)).innerInvoked = false ↔ (100 : Int) - 0 < clientCacheTimeout)
    ∧ ((convertPhp (some ((0 : Int), ({ success := true } : ConvResp))) 100 none
        "USD" "EUR" 10).upstreamInvoked = false ↔ (100 : Int) - 0 < convertCacheTime)
    ∧ ((timeseriesPhp (some (0, demoTsResp)) 100 none zStream 0 "USD" "EUR"
        30).upstreamInvoked = false ↔ (100 : Int) - 0 < timeseriesCacheTime)
    ∧ ((symbolsPhp (some (0, demoSymbolsResp)) 100 none).2.2 = false ↔
        (100 : Int) - 0 < symbolsCacheTime) :=
  ⟨staleness_and_ttl_constants.2.2.2.2.1 SymbolsResp "symbols" clientCacheTimeout 100
      [("symbols", ⟨demoSymbolsResp, 0⟩)] (some demoSymbolsResp)
      (Except.ok clientFallbackSymbolsResp) ⟨demoSymbolsResp, 0⟩ rfl,
   staleness_and_ttl_constants.2.2.2.2.2.1 0 { success := true } 100 none "USD" "EUR" 10
      (by decide) (by norm_num) (by decide),
   staleness_and_ttl_constants.2.2.2.2.2.2.1 0 demoTsResp 100 none zStream 0 "USD" "EUR" 30
      (by decide),
   staleness_and_ttl_constants.2.2.2.2.2.2.2 0 demoSymbolsResp 100 none⟩

theorem floor_half : ⌊(1 : ℚ)/2⌋ = 0 := by
  norm_num [Int.floor_eq_iff]

theorem round6_one : round6 1 = 1 := by
  unfold round6 jsRound
  have h : ⌊(1 : ℚ) * 1000000 + 1/2⌋ = 1000000 := by
    norm_num [Int.floor_eq_iff]
  rw [h]
  norm_num

theorem round2_cast_div_100 (k : ℤ) : round2 ((k : ℚ)/100) = (k : ℚ)/100 := by
  unfold round2 jsRound
  have h1 : ((k : ℚ)/100) * 100 = (k : ℚ) := by field_simp
  rw [h1]
  have h2 : ⌊(k : ℚ) + 1/2⌋ = k := by
    rw [add_comm, Int.floor_add_int, floor_half, zero_add]
  rw [h2]

/-- C6 counterexample: the claim quantifies over every currency code and
promises `result = amount` exactly, but a same-currency conversion of a code
outside the static table (XYZ → XYZ) fails with the unsupported-currency
error on both the server endpoint and the client fallback, and `result` is
the 2-decimal rounding of the amount, which differs from the amount itself
at amount = 1/200 = 0.005. -/
theorem same_currency_cex :
    (convertPhp none 0 none "XYZ" "XYZ" 10).resp.success = false
    ∧ (clientConvert none "XYZ" "XYZ" 10).outcome = Except.error unsupportedMsg
    ∧ ¬(round2 (1/200) = (1/200 : ℚ)) := by
  refine ⟨by decide, ?_, ?_⟩
  · rw [clientConvert_unsupported "XYZ" "XYZ" 10 (by decide) (Or.inl (by decide))]
  · have h1 : ((1:ℚ)/200) * 100 = 1/2 := by norm_num
    unfold round2 jsRound
    rw [h1]
    have h2 : ⌊(1:ℚ)/2 + 1/2⌋ = 1 := by norm_num [Int.floor_eq_iff]
    rw [h2]
    norm_num

/-- C6 (amended): for every code present in the static fallback table and
every positive amount, a same-currency conversion yields `rate = 1` and
`result = round2(amount)` — equal to the amount whenever the amount is a
whole number of hundredths — with `fallback = true` (on the server the
same-currency validation throw lands in the static fallback, never touching
upstream); and the static-table rate for any supported pair (a, a) is
exactly 1. Codes outside the table fail instead (see the counterexample). -/
theorem same_currency_rate_one (a : String) (r amount : ℚ) (now : Int)
    (ha : ratesQ a = some r) (hau : upperAscii a = a) (hat : trimAscii a = a)
    (hpos : 0 < amount) :
    staticRate a a = some 1
    ∧ (clientConvert none a a amount).outcome =
        Except.ok { success := true, frm := a, toC := a, amount := amount,
                    result := round2 amount, rate := 1, fallback := true }
    ∧ (∀ (u : Option UpstreamConvert) (cache : Option (Int × ConvResp)),
        (convertPhp cache now u a a amount).resp =
          { success := true, frm := a, toC := a, amount := amount,
            result := round2 amount, rate := 1, cached := some false, fallback := true }
        ∧ (convertPhp cache now u a a amount).upstreamInvoked = false)
    ∧ (∀ k : ℤ, amount = (k : ℚ)/100 → round2 amount = amount) := by
  have hr0 : r ≠ 0 := ne_of_gt (ratesQ_pos a r ha)
  have hrr : r / r = 1 := div_self hr0
  have hempty : a ≠ "" := ratesQ_ne_empty a r ha
  have hnorm : normCode a = a := by unfold normCode; rw [hat, hau]
  have hv : ¬(a = "" ∨ a = "" ∨ amount ≤ 0) := by
    push_neg
    exact ⟨hempty, hempty, hpos⟩
  refine ⟨?_, ?_, ?_, ?_⟩
  · unfold staticRate
    simp only [ha]
    rw [hrr]
  · rw [clientConvert_fallback a a amount r r hv (by rw [hau]; exact ha)
      (by rw [hau]; exact ha), hau, hrr, mul_one, round6_one]
  · intro u cache
    have h0 : ¬(a = "" ∨ a = "") := by push_neg; exact ⟨hempty, hempty⟩
    constructor
    · show (convertPhp cache now u a a amount).resp = _
      unfold convertPhp
      rw [if_neg h0]
      simp only [hnorm]
      rw [if_neg (not_le.mpr hpos), if_pos trivial]
      show phpCatch a a amount = _
      rw [phpCatch_supported a a amount r r ha ha, hrr, mul_one, round6_one]
    · show (convertPhp cache now u a a amount).upstreamInvoked = false
      unfold convertPhp
      rw [if_neg h0]
      simp only [hnorm]
      rw [if_neg (not_le.mpr hpos), if_pos trivial]
  · intro k hk
    rw [hk]
    exact round2_cast_div_100 k

/-- Witness for C6 (amended) at a = USD (table value 1), amount 100. -/
theorem same_currency_rate_one_witness :
    staticRate "USD" "USD" = some 1
    ∧ (clientConvert none "USD" "USD" 100).outcome =
        Except.ok { success := true, frm := "USD", toC := "USD", amount := 100,
                    result := round2 100, rate := 1, fallback := true }
    ∧ (∀ (u : Option UpstreamConvert) (cache : Option (Int × ConvResp)),
        (convertPhp cache 0 u "USD" "USD" 100).resp =
          { success := true, frm := "USD", toC := "USD", amount := 100,
            result := round2 100, rate := 1, cached := some false, fallback := true }
        ∧ (convertPhp cache 0 u "USD" "USD" 100).upstreamInvoked = false)
    ∧ (∀ k : ℤ, (100 : ℚ) = (k : ℚ)/100 → round2 100 = 100) :=
  same_currency_rate_one "USD" 1 100 0 rfl (by decide) (by decide) (by norm_num)

def halfStream : ℕ → ℚ := fun _ => 1/2

theorem genMockAux_length (v : ℕ → ℤ) (today : Int) (days : ℕ) :
    ∀ (n j : ℕ) (base : ℚ), (genMockAux v today days j n base).length = n := by
  intro n
  induction n with
  | zero => intro j base; rfl
  | succ n ih =>
    intro j base
    simp [genMockAux, ih]

theorem genMockAux_map_fst (v : ℕ → ℤ) (today : Int) (days : ℕ) :
    ∀ (n j : ℕ) (base : ℚ),
      (genMockAux v today days j n base).map Prod.fst
        = (List.range n).map (fun (i : ℕ) => today - (days : Int) + ((j + i : ℕ) : Int)) := by
  intro n
  induction n with
  | zero => intro j base; rfl
  | succ n ih =>
    intro j base
    rw [show genMockAux v today days j (n+1) base =
        (today - (days : Int) + (j : Int), round6 (base * (1 + (v j : ℚ) / 1000)))
          :: genMockAux v today days (j+1) n (base * (1 + (v j : ℚ) / 1000)) from rfl]
    rw [List.map_cons, ih (j+1), List.range_succ_eq_map, List.map_cons, List.map_map]
    refine congrArg₂ List.cons ?_ ?_
    · simp
    · refine List.map_congr_left ?_
      intro i hi
      simp only [Function.comp_apply]
      push_cast
      ring

/-- C7 counterexample: the client module never clamps `days`. With a failing
back-end and a supported pair, `getTimeSeries(USD, EUR, 400)` returns a
series of 401 entries, while clamping `days` to [1, 365] would allow at
most 366. -/
theorem client_days_unclamped_cex :
    (match (clientGetTimeSeries [] 0 0 none halfStream "USD" "EUR" 400).outcome with
      | Except.ok r => r.rates.length
      | Except.error _ => 0) = 401
    ∧ ¬((401 : ℕ) ≤ 366) := by
  have h : (clientGetTimeSeries [] 0 0 none halfStream "USD" "EUR" 400).outcome
      = Except.ok { frm := upperAscii "USD", toC := upperAscii "EUR",
                    rates := clientMockRates halfStream ((85/100 : ℚ) / 1) 0 400,
                    fallback := true } := rfl
  rw [h]
  refine ⟨?_, by decide⟩
  show (clientMockRates halfStream ((85/100 : ℚ) / 1) 0 400).length = 401
  unfold clientMockRates
  rw [if_pos (by decide : (0 : Int) ≤ 400)]
  simp

/-- C7 (amended): the server timeseries endpoint clamps `days` to [1, 365]
before use, and its synthetic generator produces exactly one entry per day
of `[today - days, today]`, sorted ascending by date (`days = 7` gives 8
entries); the client module, however, passes `days` through unclamped — its
fallback generator yields `days + 1` entries for any `days ≥ 0` (so 401
entries for days = 400, see the counterexample). -/
theorem days_clamp_and_series_shape (v : ℕ → ℤ) (w : ℕ → ℚ) (base : ℚ)
    (today now days : Int) (n : ℕ) (rawFrom rawTo : String)
    (h0 : ¬(rawFrom = "" ∨ rawTo = "")) :
    (1 ≤ clampDays days ∧ clampDays days ≤ 365)
    ∧ (generateMockData v today n).map Prod.fst
        = (List.range (n + 1)).map (fun (j : ℕ) => today - (n : Int) + (j : Int))
    ∧ (generateMockData v today n).length = n + 1
    ∧ ((generateMockData v today n).map Prod.fst).Pairwise (· < ·)
    ∧ (0 ≤ days →
        (clientMockRates w base today days).map Prod.fst
          = (List.range (days.toNat + 1)).map (fun (j : ℕ) => today - days + (j : Int))
        ∧ (clientMockRates w base today days).length = days.toNat + 1)
    ∧ (timeseriesPhp none now (some []) v today rawFrom rawTo days).resp.rates
        = generateMockData v today (clampDays days).toNat := by
  have hmap : (generateMockData v today n).map Prod.fst
      = (List.range (n + 1)).map (fun (j : ℕ) => today - (n : Int) + (j : Int)) := by
    unfold generateMockData
    rw [genMockAux_map_fst v today n (n+1) 0 1]
    refine List.map_congr_left ?_
    intro i hi
    simp
  refine ⟨⟨le_max_left 1 _, max_le (by norm_num) (min_le_right days 365)⟩,
    hmap, ?_, ?_, ?_, ?_⟩
  · unfold generateMockData
    exact genMockAux_length v today n (n+1) 0 1
  · rw [hmap, List.pairwise_map]
    refine (List.pairwise_lt_range (n+1)).imp ?_
    intro a b hab
    omega
  · intro hd
    constructor
    · unfold clientMockRates
      rw [if_pos hd, List.map_map]
      refine List.map_congr_left ?_
      intro i hi
      simp
    · unfold clientMockRates
      rw [if_pos hd]
      simp
  · rw [timeseriesPhp_eq_main none now (some []) v today rawFrom rawTo days h0]
    rfl

/-- Witness for C7 (amended) at the spec's example `days = 7` (8 entries),
with concrete streams and pair USD → EUR. -/
theorem days_clamp_and_series_shape_witness :
    (1 ≤ clampDays 7 ∧ clampDays 7 ≤ 365)
    ∧ (generateMockData zStream 0 7).map Prod.fst
        = (List.range (7 + 1)).map (fun (j : ℕ) => 0 - ((7 : ℕ) : Int) + (j : Int))
    ∧ (generateMockData zStream 0 7).length = 7 + 1
    ∧ ((generateMockData zStream 0 7).map Prod.fst).Pairwise (· < ·)
    ∧ ((0 : Int) ≤ 7 →
        (clientMockRates halfStream 1 0 7).map Prod.fst
          = (List.range ((7 : Int).toNat + 1)).map (fun (j : ℕ) => 0 - (7 : Int) + (j : Int))
        ∧ (clientMockRates halfStream 1 0 7).length = (7 : Int).toNat + 1)
    ∧ (timeseriesPhp none 0 (some []) zStream 0 "USD" "EUR" 7).resp.rates
        = generateMockData zStream 0 (clampDays 7).toNat :=
  days_clamp_and_series_shape zStream halfStream 1 0 0 7 7 "USD" "EUR" (by decide)

theorem take_append_take {α : Type} (cap : ℕ) (xs ys : List α) :
    (xs ++ ys.take cap).take cap = (xs ++ ys).take cap := by
  rw [List.take_append_eq_append_take, List.take_append_eq_append_take,
    List.take_take]
  congr 1
  rw [Nat.min_eq_left (Nat.sub_le cap xs.length)]

theorem foldl_historyAppend {α : Type} (cap : ℕ) :
    ∀ (rs : List α) (r : α) (start : List α),
      List.foldl (historyAppend cap) start (r :: rs)
        = ((r :: rs).reverse ++ start).take cap := by
  intro rs
  induction rs with
  | nil =>
    intro r start
    simp [historyAppend]
  | cons r' rs' ih =>
    intro r start
    rw [List.foldl_cons, ih r']
    rw [show historyAppend cap start r = (r :: start).take cap from rfl]
    rw [show ((r :: start) : List α) = [r] ++ start from rfl]
    rw [take_append_take cap ((r' :: rs').reverse) ([r] ++ start)]
    rw [show ((r :: r' :: rs').reverse : List α) = (r' :: rs').reverse ++ [r] by simp]
    rw [List.append_assoc]

/-- C8: the history log is bounded FIFO — appending cap + 5 records (here
cap = 50, the bound shared by the server endpoint and the client
localStorage store) to any starting log leaves exactly the cap newest
records in newest-first order: the result is the reversal of the appended
records with the oldest five dropped, so those five and everything older
are evicted. -/
theorem history_bound_fifo {α : Type} (start rs : List α)
    (h : rs.length = maxRecordsServer + 5) :
    List.foldl (historyAppend maxRecordsServer) start rs = (rs.drop 5).reverse
    ∧ (List.foldl (historyAppend maxRecordsServer) start rs).length = maxRecordsServer := by
  cases rs with
  | nil => simp [maxRecordsServer] at h
  | cons r rs' =>
    have hlen : (r :: rs').length = 55 := h
    have h1 := foldl_historyAppend maxRecordsServer rs' r start
    have hrevlen : ((r :: rs').drop 5).reverse.length = 50 := by
      simp only [List.length_reverse, List.length_drop, hlen]
    have hsplit : ((r :: rs').reverse : List α)
        = ((r :: rs').drop 5).reverse ++ ((r :: rs').take 5).reverse := by
      rw [← List.reverse_append, List.take_append_drop]
    have h2 : List.foldl (historyAppend maxRecordsServer) start (r :: rs')
        = ((r :: rs').drop 5).reverse := by
      rw [h1, hsplit, List.append_assoc]
      rw [show maxRecordsServer = (((r :: rs').drop 5).reverse).length from hrevlen.symm]
      exact List.take_left _ _
    refine ⟨h2, ?_⟩
    rw [h2, hrevlen]
    rfl

/-- Witness for C8: appending the 55 records 0..54 to an empty log leaves
the 50 records 54, 53, ..., 5 — records 0..4 evicted. -/
theorem history_bound_fifo_witness :
    List.foldl (historyAppend maxRecordsServer) ([] : List ℕ) (List.range 55)
      = ((List.range 55).drop 5).reverse
    ∧ (List.foldl (historyAppend maxRecordsServer) ([] : List ℕ) (List.range 55)).length
      = maxRecordsServer :=
  history_bound_fifo [] (List.range 55) (by decide)

/-- C9 counterexample: the server history list operation does not return all
stored records when no limit is given — with 11 stored records it returns
only the 10 newest (`array_slice($history, 0, 10)` is unconditional). -/
theorem get_history_caps_at_ten_cex :
    ¬((handleGetHistory (List.range 11)).history = List.range 11)
    ∧ (handleGetHistory (List.range 11)).history.length = 10
    ∧ (List.range 11).length = 11 := by
  decide

/-- C9 (amended): the history list operation never errors and returns the
records newest-first, but the server GET endpoint returns at most the 10
newest stored records — all of them only when at most 10 are stored — while
the client localStorage fallback returns every stored record (an absent
store reads as the empty list). -/
theorem history_list_newest_first_capped {α : Type} (stored : List α) :
    (handleGetHistory stored).success = true
    ∧ (handleGetHistory stored).history = stored.take 10
    ∧ (stored.length ≤ 10 → (handleGetHistory stored).history = stored)
    ∧ clientHistoryFromStorage (some stored) = stored
    ∧ clientHistoryFromStorage (none : Option (List α)) = [] := by
  refine ⟨rfl, rfl, ?_, rfl, rfl⟩
  intro hle
  show stored.take 10 = stored
  exact List.take_of_length_le hle

/-- Witness for C9 (amended) on a three-record store. -/
theorem history_list_newest_first_capped_witness :
    (handleGetHistory [0, 1, 2]).success = true
    ∧ (handleGetHistory [0, 1, 2]).history = [0, 1, 2].take 10
    ∧ ([0, 1, 2].length ≤ 10 → (handleGetHistory [0, 1, 2]).history = [0, 1, 2])
    ∧ clientHistoryFromStorage (some [0, 1, 2]) = [0, 1, 2]
    ∧ clientHistoryFromStorage (none : Option (List ℕ)) = [] :=
  history_list_newest_first_capped [0, 1, 2]

/-- C10 counterexample: the claim says every request served by the
static-fallback branch reports `cached:false`, but the unsupported-currency
error response (XYZ → USD with a failing upstream) carries no `cached` key
at all. -/
theorem fallback_error_reports_no_cached_cex :
    (convertPhp none 0 none "XYZ" "USD" 10).resp.cached = none
    ∧ ¬((convertPhp none 0 none "XYZ" "USD" 10).resp.cached = some false)
    ∧ (convertPhp none 0 none "XYZ" "USD" 10).resp.success = false
    ∧ (convertPhp none 0 none "XYZ" "USD" 10).cache = none := by
  decide

/-- C10 (amended): on the server convert endpoint the cache is written only
after a successful upstream response: every fallback-branch request —
successful static fallback or unsupported-currency failure — leaves the
cache exactly as it was; fallback conversions report `cached:false`, while
unsupported-currency error responses carry no `cached` flag; and any run
that modifies the cache is a live success whose response is what got
cached. Well-formed cache entries (the only kind the endpoint writes) stay
well-formed. -/
theorem fallback_paths_leave_cache_unchanged (cache : Option (Int × ConvResp))
    (now : Int) (u : Option UpstreamConvert) (rawFrom rawTo : String) (amount : ℚ)
    (hwf : ∀ t s, cache = some (t, s) →
      s.success = true ∧ s.fallback = false ∧ s.cached = some false) :
    ((convertPhp cache now u rawFrom rawTo amount).resp.fallback = true →
      (convertPhp cache now u rawFrom rawTo amount).cache = cache
      ∧ (convertPhp cache now u rawFrom rawTo amount).resp.cached = some false)
    ∧ ((convertPhp cache now u rawFrom rawTo amount).resp.success = false →
      (convertPhp cache now u rawFrom rawTo amount).cache = cache
      ∧ (convertPhp cache now u rawFrom rawTo amount).resp.cached = none)
    ∧ ((convertPhp cache now u rawFrom rawTo amount).cache ≠ cache →
      ∃ d, u = some d
        ∧ (convertPhp cache now u rawFrom rawTo amount).resp.success = true
        ∧ (convertPhp cache now u rawFrom rawTo amount).resp.fallback = false
        ∧ (convertPhp cache now u rawFrom rawTo amount).cache
            = some (now, (convertPhp cache now u rawFrom rawTo amount).resp))
    ∧ (∀ t s, (convertPhp cache now u rawFrom rawTo amount).cache = some (t, s) →
        s.success = true ∧ s.fallback = false ∧ s.cached = some false) := by
  rcases convertPhp_cases cache now u rawFrom rawTo amount with
    ⟨f, t, hresp, hcache⟩ | ⟨t, saved, hc, hresp, hcache⟩ | ⟨d, hu, hresp, hcache⟩
  · rcases phpCatch_cases f t amount with ⟨hs, hfb, hcd, _⟩ | ⟨hs, hfb, hcd, _⟩
    · refine ⟨fun _ => ⟨hcache, ?_⟩, fun hfail => ?_, fun hne => absurd hcache hne, ?_⟩
      · rw [hresp, hcd]
      · rw [hresp, hs] at hfail
        cases hfail
      · intro t' s' hc'
        rw [hcache] at hc'
        exact hwf t' s' hc'
    · refine ⟨fun hfb' => ?_, fun _ => ⟨hcache, ?_⟩, fun hne => absurd hcache hne, ?_⟩
      · rw [hresp, hfb] at hfb'
        cases hfb'
      · rw [hresp, hcd]
      · intro t' s' hc'
        rw [hcache] at hc'
        exact hwf t' s' hc'
  · obtain ⟨hs, hfb, _⟩ := hwf t saved hc
    refine ⟨fun hfb' => ?_, fun hfail => ?_, fun hne => absurd hcache hne, ?_⟩
    · rw [hresp] at hfb'
      simp only [ConvResp.fallback] at hfb'
      rw [hfb] at hfb'
      cases hfb'
    · rw [hresp] at hfail
      simp only [ConvResp.success] at hfail
      rw [hs] at hfail
      cases hfail
    · intro t' s' hc'
      rw [hcache] at hc'
      exact hwf t' s' hc'
  · refine ⟨fun hfb' => ?_, fun hfail => ?_, fun _ => ⟨d, hu, ?_, ?_, ?_⟩, ?_⟩
    · rw [hresp] at hfb'
      cases hfb'
    · rw [hresp] at hfail
      cases hfail
    · rw [hresp]
      rfl
    · rw [hresp]
      rfl
    · rw [hcache, hresp]
    · intro t' s' hc'
      rw [hcache] at hc'
      cases hc'
      exact ⟨rfl, rfl, rfl⟩

/-- Witness for C10 on a concrete fallback run: empty cache, failing
upstream, RUB → USD, amount 100. -/
theorem fallback_paths_leave_cache_unchanged_witness :
    ((convertPhp none 0 none "RUB" "USD" 100).resp.fallback = true →
      (convertPhp none 0 none "RUB" "USD" 100).cache = none
      ∧ (convertPhp none 0 none "RUB" "USD" 100).resp.cached = some false)
    ∧ ((convertPhp none 0 none "RUB" "USD" 100).resp.success = false →
      (convertPhp none 0 none "RUB" "USD" 100).cache = none
      ∧ (convertPhp none 0 none "RUB" "USD" 100).resp.cached = none)
    ∧ ((convertPhp none 0 none "RUB" "USD" 100).cache ≠ none →
      ∃ d, (none : Option UpstreamConvert) = some d
        ∧ (convertPhp none 0 none "RUB" "USD" 100).resp.success = true
        ∧ (convertPhp none 0 none "RUB" "USD" 100).resp.fallback = false
        ∧ (convertPhp none 0 none "RUB" "USD" 100).cache
            = some (0, (convertPhp none 0 none "RUB" "USD" 100).resp))
    ∧ (∀ t s, (convertPhp none 0 none "RUB" "USD" 100).cache = some (t, s) →
        s.success = true ∧ s.fallback = false ∧ s.cached = some false) :=
  fallback_paths_leave_cache_unchanged none 0 none "RUB" "USD" 100
    (fun _ _ h => nomatch h)
